import Mathlib

/-!
Verification development for the DemaTema2 backtest program
(`src/DemaTema2.py`).

The program wires a `DemaCrossStrategy` (a per-bar decision function plus an
order-fill notification callback) into the backtrader simulation engine, then
aggregates analyzer results and prints a one-line summary in `full_backtest`.

Shallow embedding conventions:
* Python floats are modelled as `ℚ` (no numeric claim here depends on binary
  floating-point rounding; only on sign tests, truncation to `int`, and
  `None`/truthiness handling).
* Python `int(x)` (truncation toward zero) is `pyInt`.
* Python `None` is `Option.none`; a fallible operation returns `Except`.
* The strategy's mutable attributes (`self.order`, `self.buy_signals`,
  `self.sell_signals`) form `StratState`; broker-owned data (cash, position)
  and per-bar indicator lines are passed in as a `BarView`.
-/

/-- An order request produced by the strategy: `self.buy(size=size)` or
`self.close()` (close the entire position). -/
inductive OrderReq where
  | buy (size : ℤ)
  | closePos
  deriving DecidableEq, Repr

/-- Backtrader order statuses that `notify_order` distinguishes. -/
inductive OrderStatus where
  | Submitted
  | Accepted
  | Completed
  | Canceled
  | Margin
  | Rejected
  deriving DecidableEq, Repr

/-- The slice of a backtrader order object that `notify_order` reads:
its status, its direction (`order.isbuy()`), the current bar's datetime
(`self.datas[0].datetime.datetime(0)`, modelled as a bar index), and the
executed price (`order.executed.price`). -/
structure OrderInfo where
  status : OrderStatus
  isbuy : Bool
  dt : ℕ
  price : ℚ
  deriving DecidableEq, Repr

/-- The strategy instance's mutable attributes set in `__init__`:
`self.order` (last submitted order marker), `self.buy_signals` and
`self.sell_signals` (lists of (datetime, price) pairs kept for plotting). -/
structure StratState where
  order : Option OrderReq
  buy_signals : List (ℕ × ℚ)
  sell_signals : List (ℕ × ℚ)
  deriving DecidableEq, Repr

/-- What `next` reads on a bar: the broker position size (`self.position`,
truthy iff nonzero), the broker cash (`self.broker.get_cash()`), and the
current values of the price line and indicator lines. -/
structure BarView where
  position : ℤ
  cash : ℚ
  close : ℚ
  crossover : ℚ
  atr : ℚ
  atr_sma : ℚ
  sma_trend : ℚ
  deriving DecidableEq, Repr

/-- Python `int(x)`: truncation toward zero. -/
def pyInt (q : ℚ) : ℤ :=
  if 0 ≤ q then ⌊q⌋ else ⌈q⌉

/-- Strategy parameter `order_percentage`: 0.95. -/
def DemaCrossStrategy.order_percentage : ℚ := 19 / 20

/-- Translation of `DemaCrossStrategy.next` (src/DemaTema2.py lines 55-67), the per-bar
decision function.  Logging is ignored.  Returns the updated strategy state
and the order submitted on this bar (if any). -/
def DemaCrossStrategy.next (inp : BarView) (s : StratState) :
    StratState × Option OrderReq :=
  if inp.position = 0 ∧ inp.crossover > 0 ∧ inp.close > inp.sma_trend ∧
      inp.atr > inp.atr_sma then
    let size := pyInt (inp.cash * DemaCrossStrategy.order_percentage / inp.close)
    if size > 0 then
      ({ s with order := some (OrderReq.buy size) }, some (OrderReq.buy size))
    else (s, none)
  else if inp.position ≠ 0 ∧ inp.crossover < 0 ∧ inp.atr > inp.atr_sma then
    ({ s with order := some OrderReq.closePos }, some OrderReq.closePos)
  else (s, none)

/-- Translation of `DemaCrossStrategy.notify_order` (src/DemaTema2.py lines 40-53): returns
early on `Submitted`/`Accepted`; on `Completed` appends the (datetime, price)
pair to the buy or sell signal list according to direction; in every
non-early-return case clears `self.order`. -/
def DemaCrossStrategy.notify_order (o : OrderInfo) (s : StratState) : StratState :=
  if o.status = OrderStatus.Submitted ∨ o.status = OrderStatus.Accepted then
    s
  else
    let s1 :=
      if o.status = OrderStatus.Completed then
        if o.isbuy then
          { s with buy_signals := s.buy_signals ++ [(o.dt, o.price)] }
        else
          { s with sell_signals := s.sell_signals ++ [(o.dt, o.price)] }
      else s
    { s1 with order := none }

/-! ## Simulation engine model

The simulation engine (backtrader's `Cerebro`/broker) is an external
collaborator; spec §4.2 gives its contract.  The parts of that contract the
claims depend on are modelled here from the spec's words. -/

/-- One bar of engine input: the bar's open price (market orders submitted on
bar `t` fill at bar `t+1`'s open, spec §4.2) and the values the strategy's
price/indicator lines take on this bar. -/
structure BarInput where
  open_ : ℚ
  close : ℚ
  crossover : ℚ
  atr : ℚ
  atr_sma : ℚ
  sma_trend : ℚ
  deriving DecidableEq, Repr

/-- Broker + strategy state carried across bars: running cash, position size,
the order currently pending with the broker, and the strategy instance's
mutable attributes. -/
structure EngineState where
  cash : ℚ
  position : ℤ
  pending : Option OrderReq
  strat : StratState
  deriving DecidableEq, Repr

/-- Commission rate set by `cerebro.broker.setcommission(commission=0.001)`. -/
def commission : ℚ := 1 / 1000

/-- Initial engine state: `cerebro.broker.set_cash(10000.0)` and the strategy attributes initialized
in `__init__`. -/
def initEngine : EngineState :=
  { cash := 10000, position := 0, pending := none,
    strat := { order := none, buy_signals := [], sell_signals := [] } }

/-- Modelled from the spec: the engine's fill phase at the start of a bar
(spec §4.2).  An order submitted on the previous bar is executed at this bar's
open price, a proportional commission is deducted, and the notification
callback is invoked for each order state transition (submitted, accepted,
filled), which the strategy's `notify_order` handles. -/
def brokerFill (i : ℕ) (b : BarInput) (e : EngineState) : EngineState :=
  match e.pending with
  | none => e
  | some (OrderReq.buy n) =>
      let price := b.open_
      let s := DemaCrossStrategy.notify_order
        { status := OrderStatus.Submitted, isbuy := true, dt := i, price := price } e.strat
      let s := DemaCrossStrategy.notify_order
        { status := OrderStatus.Accepted, isbuy := true, dt := i, price := price } s
      let s := DemaCrossStrategy.notify_order
        { status := OrderStatus.Completed, isbuy := true, dt := i, price := price } s
      { cash := e.cash - (n : ℚ) * price - commission * ((n : ℚ) * price),
        position := e.position + n,
        pending := none, strat := s }
  | some OrderReq.closePos =>
      let price := b.open_
      let s := DemaCrossStrategy.notify_order
        { status := OrderStatus.Submitted, isbuy := false, dt := i, price := price } e.strat
      let s := DemaCrossStrategy.notify_order
        { status := OrderStatus.Accepted, isbuy := false, dt := i, price := price } s
      let s := DemaCrossStrategy.notify_order
        { status := OrderStatus.Completed, isbuy := false, dt := i, price := price } s
      { cash := e.cash + (e.position : ℚ) * price - commission * ((e.position : ℚ) * price),
        position := 0,
        pending := none, strat := s }

/-- Minimum warm-up (in bars) of a DEMA with the given period:
`2 * period - 1` bars must have been seen before its first value. -/
def dema_minperiod (period : ℕ) : ℕ := 2 * period - 1

/-- Warm-up of the `CrossOver` of the two DEMAs: one bar more than its
inputs, since a cross compares this bar with the previous one. -/
def crossover_minperiod : ℕ := max (dema_minperiod 10) (dema_minperiod 22) + 1

/-- Warm-up of `ATR(period=14)`: the true range needs one previous close. -/
def atr_minperiod : ℕ := 14 + 1

/-- Warm-up of the SMA of the ATR. -/
def atr_sma_minperiod : ℕ := atr_minperiod + 14 - 1

/-- Warm-up of the 200-bar trend SMA. -/
def sma_trend_minperiod : ℕ := 200

/-- Modelled from the spec: indicators are undefined during their warm-up
window and no signal fires until all are defined (spec §4.1 edge-case
policy); the trend filter's 200-bar warm-up is the longest of all filters.
The engine therefore first invokes `next` on the bar at which 200 historical
bars are available. -/
def strategy_minperiod : ℕ :=
  max (max crossover_minperiod atr_minperiod)
    (max atr_sma_minperiod sma_trend_minperiod)

/-- Modelled from the spec: one engine bar (spec §4.2).  The broker first
executes the order pending from the previous bar; then, if the warm-up of
every indicator is satisfied (`i` is the 0-based bar index, so `i + 1` bars
are available), the strategy's decision function runs and any order it
returns becomes pending.  Returns the new state and the order submitted on
this bar. -/
def barStep (i : ℕ) (b : BarInput) (e : EngineState) :
    EngineState × Option OrderReq :=
  let e1 := brokerFill i b e
  if strategy_minperiod ≤ i + 1 then
    let r := DemaCrossStrategy.next
      { position := e1.position, cash := e1.cash, close := b.close,
        crossover := b.crossover, atr := b.atr, atr_sma := b.atr_sma,
        sma_trend := b.sma_trend } e1.strat
    ({ e1 with strat := r.1, pending := r.2 }, r.2)
  else (e1, none)

/-- The run: iterate `barStep` over the bar sequence, collecting the order
submitted on each bar. -/
def runOrders : ℕ → EngineState → List BarInput → List (Option OrderReq)
  | _, _, [] => []
  | i, e, b :: rest => (barStep i b e).2 :: runOrders (i + 1) (barStep i b e).1 rest

/-- The value of the strategy's pending-order marker `self.order` at each
bar's decision point (after the broker's fill-and-notify phase, just before
`next` would run). -/
def runMarkers : ℕ → EngineState → List BarInput → List (Option OrderReq)
  | _, _, [] => []
  | i, e, b :: rest =>
      (brokerFill i b e).strat.order :: runMarkers (i + 1) (barStep i b e).1 rest

/-! ## Analytics and reporting (`full_backtest`, `__main__`) -/

/-- The ticker constant of the program. -/
def default_ticker : String := "CHILE.SN"

/-- The analyzer outputs that `full_backtest` reads after the run: the Sharpe
analyzer's `sharperatio` entry (absent when the run had insufficient
variance/periods), the maximum drawdown, the `TradeAnalyzer` totals (absent
when no trades occurred), and the broker's final value.  These are produced
by external analyzers (spec §4.3) and are inputs to the reporting code. -/
structure AnalyzerOut where
  sharpe : Option ℚ
  maxdrawdown : ℚ
  total : Option ℕ
  won : Option ℕ
  finalValue : ℚ
  deriving DecidableEq, Repr

/-- Line 84: `ann_sr = sr * (252**0.5) if sr else None`.  Python truthiness:
both `None` and `0.0` are falsy.  `scale` stands for the irrational constant
`252**0.5`; no claim depends on its value. -/
def annSr (scale : ℚ) (sr : Option ℚ) : Option ℚ :=
  match sr with
  | none => none
  | some v => if v = 0 then none else some (v * scale)

/-- Line 89: `win_rate = won/total*100 if total else 0`. -/
def winRate (total won : ℕ) : ℚ :=
  if total ≠ 0 then (won : ℚ) / (total : ℚ) * 100 else 0

/-- Fixed-two-decimal rendering of a rational, standing in for Python's
`format(x, '.2f')` on a defined number.  (The exact rounding of binary
floats is irrelevant to every claim; only *whether* formatting succeeds
matters, and on a number it always succeeds.) -/
def formatFixed2 (q : ℚ) : String :=
  let cents : ℤ := round (q * 100)
  let sign := if cents < 0 then "-" else ""
  let a := cents.natAbs
  sign ++ toString (a / 100) ++ "." ++
    (if a % 100 < 10 then "0" else "") ++ toString (a % 100)

/-- A Python exception raised by the reporting code: the explicit
`raise ValueError(...)` in `__main__`, or the `TypeError` the interpreter
raises when a format spec is applied to `None`. -/
inductive PyErr where
  | valueError (msg : String)
  | typeError (msg : String)
  deriving DecidableEq, Repr

/-- Applying the `.2f` format spec to a possibly-`None` value, as the
f-string on line 90 does: on `None`, Python raises
`TypeError: unsupported format string passed to NoneType.__format__`. -/
def pyFormat2 (x : Option ℚ) : Except PyErr String :=
  match x with
  | none => Except.error (PyErr.typeError "unsupported format string passed to NoneType.__format__")
  | some v => Except.ok (formatFixed2 v)

/-- Lines 83-90 of `full_backtest`: extract the analyzer results and build
the summary line.  The f-string's format specs are evaluated left to right;
the one applied to `ann_sr` fails when `ann_sr` is `None`. -/
def full_backtest_summary (scale : ℚ) (a : AnalyzerOut) : Except PyErr String := do
  let sr := a.sharpe
  let ann_sr := annSr scale sr
  let dd := a.maxdrawdown
  let total := a.total.getD 0
  let won := a.won.getD 0
  let win_rate := winRate total won
  let fv ← pyFormat2 (some a.finalValue)
  let srs ← pyFormat2 ann_sr
  let dds ← pyFormat2 (some dd)
  let wrs ← pyFormat2 (some win_rate)
  Except.ok ("Final Value: " ++ fv ++ ", Sharpe: " ++ srs ++ ", Drawdown: " ++
    dds ++ "%, Trades: " ++ toString total ++ ", Win Rate: " ++ wrs ++ "%")

/-- Lines 108-118 of `__main__`: download the data, abort with
`ValueError(f"No data for {ticker}")` when the result is empty, otherwise run
the backtest and print the summary (the analyzer outputs of the run are
parameters here, since the engine producing them is external; the downloaded
frame is modelled as its list of bars). -/
def mainRun (df : List BarInput) (scale : ℚ) (a : AnalyzerOut) :
    Except PyErr String :=
  if df = [] then
    Except.error (PyErr.valueError ("No data for " ++ default_ticker))
  else
    full_backtest_summary scale a

/-! ## Helper lemmas -/

lemma pyInt_pos_iff (q : ℚ) : 0 < pyInt q ↔ 1 ≤ q := by
  unfold pyInt
  split_ifs with h
  · rw [Int.lt_iff_add_one_le, zero_add, Int.le_floor, Int.cast_one]
  · push_neg at h
    have h1 : ⌈q⌉ ≤ 0 := Int.ceil_le.mpr (by exact_mod_cast h.le)
    constructor
    · intro hc; omega
    · intro h2; linarith

lemma pyInt_eq_floor_of_one_le {q : ℚ} (h : 1 ≤ q) : pyInt q = ⌊q⌋ := by
  unfold pyInt
  rw [if_pos (le_trans zero_le_one h)]

lemma floor_pos_iff (q : ℚ) : 0 < ⌊q⌋ ↔ 1 ≤ q := by
  rw [Int.lt_iff_add_one_le, zero_add, Int.le_floor, Int.cast_one]

lemma notify_order_completed_buy (s : StratState) (i : ℕ) (p : ℚ) :
    DemaCrossStrategy.notify_order
        { status := OrderStatus.Completed, isbuy := true, dt := i, price := p } s
      = { order := none, buy_signals := s.buy_signals ++ [(i, p)],
          sell_signals := s.sell_signals } := rfl

lemma notify_order_completed_sell (s : StratState) (i : ℕ) (p : ℚ) :
    DemaCrossStrategy.notify_order
        { status := OrderStatus.Completed, isbuy := false, dt := i, price := p } s
      = { order := none, buy_signals := s.buy_signals,
          sell_signals := s.sell_signals ++ [(i, p)] } := rfl

lemma notify_order_submitted (s : StratState) (hb : Bool) (i : ℕ) (p : ℚ) :
    DemaCrossStrategy.notify_order
        { status := OrderStatus.Submitted, isbuy := hb, dt := i, price := p } s = s := rfl

lemma notify_order_accepted (s : StratState) (hb : Bool) (i : ℕ) (p : ℚ) :
    DemaCrossStrategy.notify_order
        { status := OrderStatus.Accepted, isbuy := hb, dt := i, price := p } s = s := rfl

lemma brokerFill_of_pending_none {e : EngineState} (h : e.pending = none)
    (i : ℕ) (b : BarInput) : brokerFill i b e = e := by
  unfold brokerFill
  rw [h]

lemma brokerFill_pending_none (i : ℕ) (b : BarInput) (e : EngineState) :
    (brokerFill i b e).pending = none := by
  unfold brokerFill
  match h : e.pending with
  | none => rw [h]
  | some (OrderReq.buy n) => rfl
  | some OrderReq.closePos => rfl

lemma brokerFill_marker_none {e : EngineState} (h : e.pending = e.strat.order)
    (i : ℕ) (b : BarInput) : (brokerFill i b e).strat.order = none := by
  unfold brokerFill
  match hp : e.pending with
  | none => rw [← h, hp]
  | some (OrderReq.buy n) => rfl
  | some OrderReq.closePos => rfl

lemma next_snd_ignores_state (inp : BarView) (s1 s2 : StratState) :
    (DemaCrossStrategy.next inp s1).2 = (DemaCrossStrategy.next inp s2).2 := by
  simp only [DemaCrossStrategy.next]
  split_ifs <;> rfl

lemma next_fst_order_eq_snd {s : StratState} (h : s.order = none)
    (inp : BarView) :
    ((DemaCrossStrategy.next inp s).1).order = (DemaCrossStrategy.next inp s).2 := by
  simp only [DemaCrossStrategy.next]
  split_ifs <;> simp [h]

lemma barStep_inv {e : EngineState} (h : e.pending = e.strat.order)
    (i : ℕ) (b : BarInput) :
    ((barStep i b e).1).pending = ((barStep i b e).1).strat.order := by
  unfold barStep
  have h1 : (brokerFill i b e).pending = none := brokerFill_pending_none i b e
  have h2 : (brokerFill i b e).strat.order = none := brokerFill_marker_none h i b
  split_ifs with hmp
  · simp only
    exact (next_fst_order_eq_snd h2 _).symm
  · simp only [h1, h2]

lemma barStep_warmup {i : ℕ} (hmp : ¬ strategy_minperiod ≤ i + 1)
    {e : EngineState} (hp : e.pending = none) (b : BarInput) :
    barStep i b e = (e, none) := by
  unfold barStep
  rw [brokerFill_of_pending_none hp, if_neg hmp]

lemma strategy_minperiod_eq : strategy_minperiod = 200 := by
  unfold strategy_minperiod crossover_minperiod atr_minperiod atr_sma_minperiod
    sma_trend_minperiod dema_minperiod
  decide

lemma pyInt_intCast (n : ℤ) : pyInt (n : ℚ) = n := by
  unfold pyInt
  split_ifs with h
  · exact Int.floor_intCast n
  · exact Int.ceil_intCast n

lemma barStep_snd_warmup {i : ℕ} (hmp : ¬ strategy_minperiod ≤ i + 1)
    (b : BarInput) (e : EngineState) : (barStep i b e).2 = none := by
  simp only [barStep, if_neg hmp]

lemma runOrders_warmup : ∀ (bars : List BarInput) (i j : ℕ) (e : EngineState),
    i + j + 1 < strategy_minperiod →
    (runOrders i e bars).getD j none = none := by
  intro bars
  induction bars with
  | nil => intro i j e _; simp [runOrders]
  | cons b rest ih =>
      intro i j e h
      match j with
      | 0 =>
          simp only [runOrders, List.getD_cons_zero]
          exact barStep_snd_warmup (by omega) b e
      | j + 1 =>
          simp only [runOrders, List.getD_cons_succ]
          exact ih (i + 1) j _ (by omega)

lemma runMarkers_none : ∀ (bars : List BarInput) (i : ℕ) (e : EngineState),
    e.pending = e.strat.order →
    ∀ m ∈ runMarkers i e bars, m = none := by
  intro bars
  induction bars with
  | nil => intro i e _ m hm; simp [runMarkers] at hm
  | cons b rest ih =>
      intro i e h m hm
      simp only [runMarkers, List.mem_cons] at hm
      rcases hm with hm | hm
      · exact hm.trans (brokerFill_marker_none h i b)
      · exact ih (i + 1) _ (barStep_inv h i b) m hm

lemma runOrders_replicate_quiet : ∀ (n i : ℕ) (e : EngineState),
    e.pending = none → i + n + 1 ≤ strategy_minperiod →
    ∀ (b : BarInput) (rest : List BarInput),
    runOrders i e (List.replicate n b ++ rest)
      = List.replicate n (none : Option OrderReq) ++ runOrders (i + n) e rest := by
  intro n
  induction n with
  | zero => intro i e _ _ b rest; simp
  | succ n ih =>
      intro i e hp h b rest
      have hmp : ¬ strategy_minperiod ≤ i + 1 := by omega
      have hstep : barStep i b e = (e, none) := barStep_warmup hmp hp b
      rw [List.replicate_succ, List.cons_append]
      simp only [runOrders, hstep]
      rw [ih (i + 1) e hp (by omega) b rest]
      have : i + 1 + n = i + (n + 1) := by omega
      rw [this, List.replicate_succ, List.cons_append]

/-! ## Concrete inputs used by witnesses and counterexamples -/

/-- A warm-up bar on which nothing can happen (crossover 0, flat ATR). -/
def quietBar : BarInput :=
  { open_ := 100, close := 100, crossover := 0, atr := 1, atr_sma := 1, sma_trend := 100 }

/-- A bar satisfying every entry condition: upward cross, close above the
trend SMA, ATR above its SMA. -/
def triggerBar : BarInput :=
  { open_ := 100, close := 100, crossover := 1, atr := 2, atr_sma := 1, sma_trend := 50 }

/-- A 200-bar input series: 199 quiet warm-up bars followed by one triggering bar,
so its 200th bar satisfies every entry condition. -/
def c4Bars : List BarInput := List.replicate 199 quietBar ++ [triggerBar]

lemma size_eval_95 :
    pyInt ((10000 : ℚ) * DemaCrossStrategy.order_percentage / 100) = 95 := by
  have h : (10000 : ℚ) * DemaCrossStrategy.order_percentage / 100 = ((95 : ℤ) : ℚ) := by
    unfold DemaCrossStrategy.order_percentage
    norm_num
  rw [h, pyInt_intCast]

/-! ## Claim theorems -/

/-- C1 (amended): at every bar's decision point of every run, the strategy's
pending-order marker `self.order` has already been cleared: the engine
resolves each submitted order (fill plus `notify_order`, which sets
`self.order = None`) before the next invocation of `next`, so at most one
order is ever pending at a bar.  This — not any check inside `next` — is what
bounds the number of live orders; `next` itself never consults the marker
(see the counterexample). -/
theorem c1_marker_resolved_before_decision (bars : List BarInput)
    (m : Option OrderReq) (hm : m ∈ runMarkers 0 initEngine bars) : m = none :=
  runMarkers_none bars 0 initEngine rfl m hm

/-- Witness for C1's amended theorem at a concrete one-bar run. -/
theorem c1_marker_witness : (none : Option OrderReq) = none := by
  have hb : brokerFill 0 quietBar initEngine = initEngine :=
    brokerFill_of_pending_none rfl 0 quietBar
  exact c1_marker_resolved_before_decision [quietBar] none
    (by
      simp only [runMarkers, hb]
      simp [initEngine, runMarkers])

/-- C1 counterexample: the claim "if an order is pending when `next` is
invoked, any new entry or exit signal on that bar is ignored (no additional
order is submitted)" is false of the code: `next` never reads `self.order`.
At a state whose pending-order marker is set (`self.order = buy 1`) and a bar
satisfying every entry condition, `next` submits a further buy order. -/
theorem c1_pending_ignored_counterexample :
    ({ order := some (OrderReq.buy 1), buy_signals := [], sell_signals := [] } :
        StratState).order ≠ none
    ∧ (DemaCrossStrategy.next
        { position := 0, cash := 10000, close := 100, crossover := 1,
          atr := 2, atr_sma := 1, sma_trend := 50 }
        { order := some (OrderReq.buy 1), buy_signals := [], sell_signals := [] }).2
      = some (OrderReq.buy 95) := by
  constructor
  · simp
  · simp only [DemaCrossStrategy.next]
    norm_num [size_eval_95]

/-- C3: on a bar where the strategy is flat, the crossover signals an upward
cross, close is above the 200-bar SMA and ATR exceeds its SMA, `next`
computes the size `floor(cash * 0.95 / close)` and submits a buy for exactly
that size iff it is positive; no buy is submitted when it is ≤ 0.  (The code
truncates with `int(...)`; under the entry conditions the submit-iff-positive
behaviour and the submitted size agree exactly with the floor.) -/
theorem c3_entry_size (position : ℤ) (cash close crossover atr atr_sma sma_trend : ℚ)
    (s : StratState)
    (hflat : position = 0) (hx : crossover > 0) (htrend : close > sma_trend)
    (hatr : atr > atr_sma) :
    ((DemaCrossStrategy.next ⟨position, cash, close, crossover, atr, atr_sma, sma_trend⟩ s).2
        = some (OrderReq.buy ⌊cash * DemaCrossStrategy.order_percentage / close⌋)
      ↔ 0 < ⌊cash * DemaCrossStrategy.order_percentage / close⌋)
    ∧ (⌊cash * DemaCrossStrategy.order_percentage / close⌋ ≤ 0 →
        (DemaCrossStrategy.next ⟨position, cash, close, crossover, atr, atr_sma, sma_trend⟩ s).2
          = none)
    ∧ (∀ r, (DemaCrossStrategy.next ⟨position, cash, close, crossover, atr, atr_sma, sma_trend⟩ s).2
          = some r →
        r = OrderReq.buy ⌊cash * DemaCrossStrategy.order_percentage / close⌋) := by
  simp only [DemaCrossStrategy.next]
  rw [if_pos ⟨hflat, hx, htrend, hatr⟩]
  by_cases hsz : 1 ≤ cash * DemaCrossStrategy.order_percentage / close
  · have hpy : pyInt (cash * DemaCrossStrategy.order_percentage / close)
        = ⌊cash * DemaCrossStrategy.order_percentage / close⌋ :=
      pyInt_eq_floor_of_one_le hsz
    have hfpos : 0 < ⌊cash * DemaCrossStrategy.order_percentage / close⌋ :=
      (floor_pos_iff _).mpr hsz
    rw [if_pos (show pyInt (cash * DemaCrossStrategy.order_percentage / close) > 0 from
      (pyInt_pos_iff _).mpr hsz)]
    refine ⟨by simp [hpy, hfpos], fun hle => absurd hfpos (by omega), fun r hr => ?_⟩
    simp only [hpy] at hr
    simpa using hr.symm
  · have hnpos : ¬ pyInt (cash * DemaCrossStrategy.order_percentage / close) > 0 := by
      simp only [gt_iff_lt, pyInt_pos_iff]
      exact hsz
    have hfle : ⌊cash * DemaCrossStrategy.order_percentage / close⌋ ≤ 0 := by
      by_contra hc
      exact hsz ((floor_pos_iff _).mp (by omega))
    rw [if_neg hnpos]
    refine ⟨by simp; omega, fun _ => rfl, fun r hr => by simp at hr⟩

/-- Witness for C3 at cash 10000, close 100: the buy submitted has size 95. -/
theorem c3_entry_size_witness :
    (DemaCrossStrategy.next ⟨0, 10000, 100, 1, 2, 1, 50⟩
        { order := none, buy_signals := [], sell_signals := [] }).2
      = some (OrderReq.buy 95) := by
  have hfl : ⌊(10000 : ℚ) * DemaCrossStrategy.order_percentage / 100⌋ = 95 := by
    have h : (10000 : ℚ) * DemaCrossStrategy.order_percentage / 100 = ((95 : ℤ) : ℚ) := by
      unfold DemaCrossStrategy.order_percentage
      norm_num
    rw [h, Int.floor_intCast]
  have h95 := (c3_entry_size 0 10000 100 1 2 1 50
      { order := none, buy_signals := [], sell_signals := [] }
      rfl (by norm_num) (by norm_num) (by norm_num)).1.mpr (by rw [hfl]; norm_num)
  rw [hfl] at h95
  exact h95

/-- C5: on a bar where the strategy holds a position, the crossover signals a
downward cross, and ATR exceeds its SMA, `next` submits the order closing the
entire position (`self.close()`, which the broker fills by flattening the
position); while in a position, if any of these conditions fails, no order is
submitted. -/
theorem c5_exit_rule (position : ℤ) (cash close crossover atr atr_sma sma_trend : ℚ)
    (s : StratState) (hpos : position ≠ 0) :
    (crossover < 0 → atr > atr_sma →
      (DemaCrossStrategy.next ⟨position, cash, close, crossover, atr, atr_sma, sma_trend⟩ s).2
        = some OrderReq.closePos)
    ∧ (¬(crossover < 0 ∧ atr > atr_sma) →
      (DemaCrossStrategy.next ⟨position, cash, close, crossover, atr, atr_sma, sma_trend⟩ s).2
        = none)
    ∧ (∀ (i : ℕ) (b : BarInput) (e : EngineState),
        e.pending = some OrderReq.closePos → (brokerFill i b e).position = 0) := by
  refine ⟨?_, ?_, ?_⟩
  · intro hx hatr
    simp only [DemaCrossStrategy.next]
    rw [if_neg (fun hc => hpos hc.1), if_pos ⟨hpos, hx, hatr⟩]
  · intro hn
    simp only [DemaCrossStrategy.next]
    rw [if_neg (fun hc => hpos hc.1), if_neg (fun hc => hn ⟨hc.2.1, hc.2.2⟩)]
  · intro i b e hp
    simp only [brokerFill, hp]

/-- Witness for C5: a downward cross with rising ATR while holding 95 shares
submits the close order, and the broker's fill of a close order flattens the
position. -/
theorem c5_exit_rule_witness :
    (DemaCrossStrategy.next ⟨95, 500, 100, -1, 2, 1, 120⟩
        { order := none, buy_signals := [], sell_signals := [] }).2
      = some OrderReq.closePos
    ∧ (brokerFill 3 quietBar
        { cash := 500, position := 95, pending := some OrderReq.closePos,
          strat := { order := some OrderReq.closePos, buy_signals := [], sell_signals := [] } }).position
      = 0 := by
  have h := c5_exit_rule 95 500 100 (-1) 2 1 120
    { order := none, buy_signals := [], sell_signals := [] } (by norm_num)
  exact ⟨h.1 (by norm_num) (by norm_num), h.2.2 3 quietBar _ rfl⟩

/-- C6: a buy order is only ever submitted by `next` while the strategy is
flat (position 0), and the closing sell order only while a position is held
(position nonzero). -/
theorem c6_direction_invariant (position : ℤ)
    (cash close crossover atr atr_sma sma_trend : ℚ) (s : StratState) :
    (∀ n : ℤ,
      (DemaCrossStrategy.next ⟨position, cash, close, crossover, atr, atr_sma, sma_trend⟩ s).2
        = some (OrderReq.buy n) → position = 0)
    ∧ ((DemaCrossStrategy.next ⟨position, cash, close, crossover, atr, atr_sma, sma_trend⟩ s).2
        = some OrderReq.closePos → position ≠ 0) := by
  simp only [DemaCrossStrategy.next]
  split_ifs with h1 h2 h3
  · exact ⟨fun n _ => h1.1, by simp⟩
  · exact ⟨fun n hn => by simp at hn, fun hc => by simp at hc⟩
  · exact ⟨fun n hn => by simp at hn, fun _ => h3.1⟩
  · exact ⟨fun n hn => by simp at hn, fun hc => by simp at hc⟩

/-- Witness for C6: the buy emitted on an entry bar happens at position 0,
and the close emitted on an exit bar happens at a nonzero position. -/
theorem c6_direction_witness : (0 : ℤ) = 0 ∧ (95 : ℤ) ≠ 0 := by
  constructor
  · refine (c6_direction_invariant 0 10000 100 1 2 1 50
      { order := none, buy_signals := [], sell_signals := [] }).1 95 ?_
    simp only [DemaCrossStrategy.next]
    norm_num [size_eval_95]
  · refine (c6_direction_invariant 95 500 100 (-1) 2 1 120
      { order := none, buy_signals := [], sell_signals := [] }).2 ?_
    simp only [DemaCrossStrategy.next]
    norm_num

/-- C9: on a completed fill notification, `notify_order` appends the (fill
timestamp, fill price) pair to `buy_signals` for buy fills and to
`sell_signals` for sell fills (and clears the order marker); and the contents
of the two signal lists have no influence on trading decisions: two
invocations of `next` on states that differ only in the signal lists (same
order marker) submit identical orders. -/
theorem c9_signals_no_influence (s : StratState) (i : ℕ) (p : ℚ)
    (inp : BarView) (s1 s2 : StratState) :
    (DemaCrossStrategy.notify_order
        { status := OrderStatus.Completed, isbuy := true, dt := i, price := p } s
      = { order := none, buy_signals := s.buy_signals ++ [(i, p)],
          sell_signals := s.sell_signals })
    ∧ (DemaCrossStrategy.notify_order
        { status := OrderStatus.Completed, isbuy := false, dt := i, price := p } s
      = { order := none, buy_signals := s.buy_signals,
          sell_signals := s.sell_signals ++ [(i, p)] })
    ∧ (s1.order = s2.order →
        (DemaCrossStrategy.next inp s1).2 = (DemaCrossStrategy.next inp s2).2) :=
  ⟨notify_order_completed_buy s i p, notify_order_completed_sell s i p,
    fun _ => next_snd_ignores_state inp s1 s2⟩

/-- Witness for C9: a concrete buy fill is appended to the buy list, and two
states with different signal lists produce the same order from `next`. -/
theorem c9_signals_witness :
    DemaCrossStrategy.notify_order
        { status := OrderStatus.Completed, isbuy := true, dt := 3, price := 7 }
        { order := some OrderReq.closePos, buy_signals := [(1, 2)], sell_signals := [(0, 9)] }
      = { order := none, buy_signals := [(1, 2), (3, 7)], sell_signals := [(0, 9)] }
    ∧ (DemaCrossStrategy.next ⟨0, 10000, 100, 1, 2, 1, 50⟩
        { order := none, buy_signals := [(1, 2)], sell_signals := [(3, 4)] }).2
      = (DemaCrossStrategy.next ⟨0, 10000, 100, 1, 2, 1, 50⟩
        { order := none, buy_signals := [], sell_signals := [] }).2 := by
  constructor
  · have h := (c9_signals_no_influence
      { order := some OrderReq.closePos, buy_signals := [(1, 2)], sell_signals := [(0, 9)] }
      3 7 ⟨0, 0, 0, 0, 0, 0, 0⟩
      { order := none, buy_signals := [], sell_signals := [] }
      { order := none, buy_signals := [], sell_signals := [] }).1
    simpa using h
  · exact (c9_signals_no_influence
      { order := none, buy_signals := [], sell_signals := [] } 0 0
      ⟨0, 10000, 100, 1, 2, 1, 50⟩
      { order := none, buy_signals := [(1, 2)], sell_signals := [(3, 4)] }
      { order := none, buy_signals := [], sell_signals := [] }).2.2 rfl

lemma next_trigger_eval :
    (DemaCrossStrategy.next ⟨0, 10000, 100, 1, 2, 1, 50⟩
        { order := none, buy_signals := [], sell_signals := [] }).2
      = some (OrderReq.buy 95) := by
  simp only [DemaCrossStrategy.next]
  norm_num [size_eval_95]

/-- C4 (amended): for every input series, no buy or sell order is submitted
on any of the first 199 bars (the bars strictly before the 200th): the
200-bar trend-filter warm-up is the longest of all indicator warm-ups, and
the decision function is not invoked until 200 bars are available.  (On the
200th bar itself the indicators are defined and an order can already be
submitted — see the counterexample.) -/
theorem c4_warmup_no_orders (bars : List BarInput) (j : ℕ) (h : j < 199) :
    (runOrders 0 initEngine bars).getD j none = none := by
  apply runOrders_warmup
  rw [strategy_minperiod_eq]
  omega

/-- Witness for C4's amended theorem: even a bar satisfying every entry
condition produces no order when it is the first bar of the series. -/
theorem c4_warmup_witness :
    (runOrders 0 initEngine [triggerBar]).getD 0 none = none :=
  c4_warmup_no_orders [triggerBar] 0 (by norm_num)

/-- C4 counterexample: a concrete 200-bar series (199 quiet bars followed by
one bar satisfying every entry condition) on whose 200th bar — within "the
first 200 bars" — the strategy submits a buy order of size 95, so the claim
"no order is ever submitted on any of the first 200 bars" is false. -/
theorem c4_order_on_bar200_counterexample :
    c4Bars.length = 200
    ∧ runOrders 0 initEngine c4Bars
      = List.replicate 199 (none : Option OrderReq) ++ [some (OrderReq.buy 95)] := by
  have hfill : brokerFill 199 triggerBar initEngine = initEngine :=
    brokerFill_of_pending_none rfl 199 triggerBar
  have hstep : (barStep 199 triggerBar initEngine).2 = some (OrderReq.buy 95) := by
    unfold barStep
    rw [hfill, if_pos (by rw [strategy_minperiod_eq])]
    simp only [initEngine, triggerBar]
    exact next_trigger_eval
  constructor
  · show (List.replicate 199 quietBar ++ [triggerBar]).length = 200
    rw [List.length_append, List.length_replicate]
    rfl
  · show runOrders 0 initEngine (List.replicate 199 quietBar ++ [triggerBar]) = _
    rw [runOrders_replicate_quiet 199 0 initEngine rfl
      (by rw [strategy_minperiod_eq]) quietBar [triggerBar]]
    norm_num
    simp only [runOrders]
    rw [hstep]

/-- C7: the reported win rate is exactly 0 when the total number of closed
trades (`trades.total.total or 0`) is 0, and equals `won/total*100` for every
positive total, where `won` is the analyzer's count of winning closed trades
(`trades.won.total or 0`). -/
theorem c7_win_rate (t w : Option ℕ) :
    (t.getD 0 = 0 → winRate (t.getD 0) (w.getD 0) = 0)
    ∧ (0 < t.getD 0 →
        winRate (t.getD 0) (w.getD 0) = ((w.getD 0 : ℕ) : ℚ) / ((t.getD 0 : ℕ) : ℚ) * 100) := by
  constructor
  · intro h
    simp [winRate, h]
  · intro h
    unfold winRate
    rw [if_pos (by omega)]

/-- Witness for C7: 4 closed trades, 1 winner gives rate 1/4*100; absent
totals give rate 0. -/
theorem c7_win_rate_witness :
    winRate ((some 4 : Option ℕ).getD 0) ((some 1 : Option ℕ).getD 0)
      = (((some 1 : Option ℕ).getD 0 : ℕ) : ℚ) / (((some 4 : Option ℕ).getD 0 : ℕ) : ℚ) * 100
    ∧ winRate ((none : Option ℕ).getD 0) ((none : Option ℕ).getD 0) = 0 :=
  ⟨(c7_win_rate (some 4) (some 1)).2 (by norm_num),
    (c7_win_rate none none).1 rfl⟩

/-- C10 (implicit): because line 84 tests the Sharpe value's truthiness
(`if sr`) rather than its presence, a defined per-period Sharpe ratio of 0.0
yields an absent annualized Sharpe, identically to the undefined (`None`)
case; any nonzero ratio is scaled. -/
theorem c10_zero_sharpe_absent (scale : ℚ) :
    annSr scale (some 0) = none ∧ annSr scale none = none := by
  constructor
  · simp [annSr]
  · rfl

lemma full_backtest_summary_no_valueError (scale : ℚ) (a : AnalyzerOut) (m : String) :
    full_backtest_summary scale a ≠ Except.error (PyErr.valueError m) := by
  intro hc
  unfold full_backtest_summary at hc
  dsimp only at hc
  cases hann : annSr scale a.sharpe with
  | none =>
      rw [hann] at hc
      simp [pyFormat2, Bind.bind, Except.bind] at hc
  | some v =>
      rw [hann] at hc
      simp [pyFormat2, Bind.bind, Except.bind] at hc

/-- C2: when the per-period Sharpe ratio is absent, line 84 does report the
annualized value as absent (`None`) rather than raising; but the summary
formatting on line 90 does **not** special-case this absence: evaluating the
f-string applies the `.2f` spec to `None` and raises
`TypeError: unsupported format string passed to NoneType.__format__`, so
printing the summary fails for every such run. -/
theorem c2_sharpe_none_format_crash (scale : ℚ) :
    annSr scale none = none
    ∧ full_backtest_summary scale
        { sharpe := none, maxdrawdown := 3, total := some 2, won := some 1,
          finalValue := 10500 }
      = Except.error (PyErr.typeError
          "unsupported format string passed to NoneType.__format__") :=
  ⟨rfl, rfl⟩

/-- C8: `__main__` aborts with `ValueError(f"No data for {ticker}")` exactly
when the downloaded frame is empty — before any backtest or plotting — and
this emptiness test is the program's only explicit failure check: no other
input produces a `ValueError`. -/
theorem c8_empty_abort (df : List BarInput) (scale : ℚ) (a : AnalyzerOut) :
    (df = [] → mainRun df scale a
      = Except.error (PyErr.valueError ("No data for " ++ default_ticker)))
    ∧ (∀ m, mainRun df scale a = Except.error (PyErr.valueError m) → df = []) := by
  constructor
  · intro h
    unfold mainRun
    rw [if_pos h]
  · intro m hm
    by_contra hne
    unfold mainRun at hm
    rw [if_neg hne] at hm
    exact full_backtest_summary_no_valueError scale a m hm

/-- Witness for C8: the empty frame aborts with the descriptive error. -/
theorem c8_empty_abort_witness :
    mainRun [] 1
        { sharpe := some 1, maxdrawdown := 0, total := none, won := none,
          finalValue := 10000 }
      = Except.error (PyErr.valueError ("No data for " ++ default_ticker)) :=
  (c8_empty_abort [] 1
    { sharpe := some 1, maxdrawdown := 0, total := none, won := none,
      finalValue := 10000 }).1 rfl
